import Mathlib

/-!
Verification of the supply-chain dashboard pipeline (src/app.py).

The development shallowly embeds the data pipeline of the dashboard:
the loader's column-name normalization and numeric coercion, the
month / cost-center / item membership filters, the four scalar metrics,
and the two group-by aggregate tables with top-N truncation.

Modelling conventions:
- A dataframe is a `List Row`; a row is a record with the columns the
  pipeline reads.  Numeric cells are modelled as `Int` (pandas floats
  are outside the scope of the claims, which are structural).
- Dates are `Option SimpleDate`; `none` models `NaT` (a value
  `pd.to_datetime(..., errors='coerce')` failed to parse).
- The derived `Month_Year` column is an `Option String` field on the
  row; `none` models the `NaN` produced by `dt.strftime` on `NaT`.
- Fallible code (the `try/except` around fetch + parse in `load_data`)
  is modelled with `Except`.
-/

/-- Calendar date (year, month, day), the payload of a parsed `Issue date`
cell. -/
structure SimpleDate where
  year : Nat
  month : Nat
  day : Nat
deriving DecidableEq

/-- One row of the requisition/issue table, after loading.  Field names
follow the normalized column names used in src/app.py.  `monthYear` is the
derived `Month_Year` column (line 120); it is `none` until `setMonthYear`
computes it, and stays `none` for rows with an unparsable date. -/
structure Row where
  issueDate : Option SimpleDate
  issueNumber : String
  requestingCostCenter : String
  itemCode : String
  itemName : String
  category : String
  uom : String
  requisitionQuantity : Int
  issueQuantity : Int
  pendingIssueQuantity : Int
  itemRate : Int
  lineItemTotal : Int
  issueStatus : String
  monthYear : Option String
deriving DecidableEq

/-! ## Loader: numeric coercion (src/app.py lines 92-95) -/

/-- The designated numeric columns of `load_data` (src/app.py line 92). -/
def numeric_cols : List String :=
  ["Requisition Quantity", "Issue Quantity", "Pending Issue Quantity",
   "Line Item Total", "Item Rate"]

/-- Numeric value of a decimal digit character. -/
def digitVal (c : Char) : Nat := c.toNat - 48

/-- Accumulate the value of a digit string; `none` as soon as a
non-digit character appears. -/
def digitsValAux : List Char → Nat → Option Nat
  | [], acc => some acc
  | c :: rest, acc =>
    if c.isDigit then digitsValAux rest (10 * acc + digitVal c) else none

/-- Value of a non-empty all-digit string, `none` otherwise. -/
def digitsVal (cs : List Char) : Option Nat :=
  match cs with
  | [] => none
  | _ => digitsValAux cs 0

/-- Model of `pd.to_numeric(cell, errors='coerce')` on a single cell:
numeric literals are modelled as optionally signed decimal integers;
`none` models the `NaN` produced for an unparsable cell. -/
def parseNumeric (s : String) : Option Int :=
  match s.toList with
  | '-' :: rest => (digitsVal rest).map (fun n => -(n : Int))
  | '+' :: rest => (digitsVal rest).map (fun n => (n : Int))
  | cs => (digitsVal cs).map (fun n => (n : Int))

/-- Model of `pd.to_numeric(col, errors='coerce')` on a whole column
(src/app.py line 95, before `.fillna(0)`). -/
def to_numeric_coerce (col : List String) : List (Option Int) :=
  col.map parseNumeric

/-- Model of `.fillna(0)` on a numeric column (src/app.py line 95). -/
def fillna_zero (col : List (Option Int)) : List Int :=
  col.map (fun o => o.getD 0)

/-- The full numeric coercion `pd.to_numeric(col, errors='coerce').fillna(0)`
applied by `load_data` to each designated numeric column present. -/
def coerce_numeric_column (col : List String) : List Int :=
  fillna_zero (to_numeric_coerce col)

/-! ## Loader: column-name normalization (src/app.py line 84) -/

/-- Model of Python `str.strip` on the character list of a header. -/
def trimChars (cs : List Char) : List Char :=
  ((cs.dropWhile Char.isWhitespace).reverse.dropWhile Char.isWhitespace).reverse

/-- Model of `str.replace(' :', '')`: remove every (left-to-right,
non-overlapping) occurrence of the two-character pattern space-colon. -/
def removeSpaceColon : List Char → List Char
  | [] => []
  | [c] => [c]
  | c1 :: c2 :: rest =>
    if c1 = ' ' ∧ c2 = ':' then removeSpaceColon rest
    else c1 :: removeSpaceColon (c2 :: rest)

/-- Model of `str.replace(':', '')`: remove every colon character. -/
def removeColon (cs : List Char) : List Char :=
  cs.filter (fun c => !(c == ':'))

/-- Model of `.str.strip()` on a header name. -/
def strTrim (s : String) : String := ⟨trimChars s.toList⟩

/-- Column-name normalization of src/app.py line 84:
`df.columns.str.strip().str.replace(' :', '').str.replace(':', '')`. -/
def normalize_header (s : String) : String :=
  ⟨removeColon (removeSpaceColon (strTrim s).toList)⟩

/-! ## Loader: top-level error handling (src/app.py lines 80-100) -/

/-- Outcome of `load_data`: the returned dataframe together with the
error message reported through `st.error`, if any. -/
structure LoadResult where
  df : List Row
  errorReported : Option String
deriving DecidableEq

/-- Model of `load_data` (src/app.py lines 78-100).  The fallible body of
the `try` block (network fetch + CSV parse + cleaning) is modelled as an
`Except String (List Row)` input; the `except` branch reports the error
via `st.error` and returns an empty dataframe. -/
def load_data (attempt : Except String (List Row)) : LoadResult :=
  match attempt with
  | Except.ok rows => { df := rows, errorReported := none }
  | Except.error e => { df := [], errorReported := some ("Error loading data: " ++ e) }

/-! ## Month_Year derivation and date sort (src/app.py lines 120-122) -/

/-- Month abbreviation used by `strftime('%b-%Y')`. -/
def monthName : Nat → String
  | 1 => "Jan"
  | 2 => "Feb"
  | 3 => "Mar"
  | 4 => "Apr"
  | 5 => "May"
  | 6 => "Jun"
  | 7 => "Jul"
  | 8 => "Aug"
  | 9 => "Sep"
  | 10 => "Oct"
  | 11 => "Nov"
  | 12 => "Dec"
  | _ => ""

/-- The `'%b-%Y'` label of a date, e.g. `Jan-2026`. -/
def dateLabel (d : SimpleDate) : String :=
  monthName d.month ++ "-" ++ toString d.year

/-- Model of `df['Month_Year'] = df['Issue date'].dt.strftime('%b-%Y')`
on one row (src/app.py line 120); an unparsed date yields no label. -/
def setMonthYear (r : Row) : Row :=
  { r with monthYear := r.issueDate.map dateLabel }

/-- Numeric key of a date, monotone in (year, month, day). -/
def dateKey (d : SimpleDate) : Nat :=
  d.year * 10000 + d.month * 100 + d.day

/-- Descending comparison on optional dates; missing dates (`NaT`) sort
last, as pandas `sort_values` does by default. -/
def dateLeDesc (a b : Option SimpleDate) : Bool :=
  match a, b with
  | some x, some y => decide (dateKey y ≤ dateKey x)
  | some _, none => true
  | none, some _ => false
  | none, none => true

/-- Row ordering of `df.sort_values('Issue date', ascending=False)`. -/
def dateDescRel (a b : Row) : Prop :=
  dateLeDesc a.issueDate b.issueDate = true

instance : DecidableRel dateDescRel :=
  fun a b => inferInstanceAs (Decidable (dateLeDesc a.issueDate b.issueDate = true))

/-- The dataset preparation of src/app.py lines 120-122: derive the
`Month_Year` column, then sort by `Issue date` descending. -/
def prepare (df : List Row) : List Row :=
  List.insertionSort dateDescRel (df.map setMonthYear)

/-! ## Filters (src/app.py lines 149-158) -/

/-- Model of `filtered_df['Month_Year'].isin(selected_months)` on one row;
a missing label (`NaN`) is in no selection. -/
def monthIsin (ms : List String) (r : Row) : Bool :=
  match r.monthYear with
  | some l => ms.contains l
  | none => false

/-- The month filter (src/app.py lines 151-152): applied only when the
selection is non-empty. -/
def apply_month (ms : List String) (d : List Row) : List Row :=
  if ms.isEmpty then d else d.filter (monthIsin ms)

/-- Model of `filtered_df['Requesting Cost Center'].isin(selected_cc)`. -/
def ccIsin (ccs : List String) (r : Row) : Bool :=
  ccs.contains r.requestingCostCenter

/-- The cost-center filter (src/app.py lines 154-155). -/
def apply_cc (ccs : List String) (d : List Row) : List Row :=
  if ccs.isEmpty then d else d.filter (ccIsin ccs)

/-- Model of `filtered_df['Item Name'].isin(selected_items)`. -/
def itemIsin (its : List String) (r : Row) : Bool :=
  its.contains r.itemName

/-- The item filter (src/app.py lines 157-158). -/
def apply_items (its : List String) (d : List Row) : List Row :=
  if its.isEmpty then d else d.filter (itemIsin its)

/-- Model of `df.copy()` (src/app.py line 149): a fresh dataframe with
the same rows. -/
def dfCopy (d : List Row) : List Row := d.map id

/-- The filter stage, src/app.py lines 149-158, as a state transformer:
given the prepared dataset and the three selections it returns the pair
(dataset after the stage, filtered view).  The stage starts from a copy
of `df` and never rebinds `df`, so the first component is `df` itself. -/
def filter_stage (df : List Row) (ms ccs its : List String) : List Row × List Row :=
  (df, apply_items its (apply_cc ccs (apply_month ms (dfCopy df))))

/-- The filtered view `filtered_df` of src/app.py lines 149-158. -/
def filtered_df (df : List Row) (ms ccs its : List String) : List Row :=
  (filter_stage df ms ccs its).2

/-- Conjunctive row predicate: each non-empty selection imposes a
membership test on its field. -/
def keepRow (ms ccs its : List String) (r : Row) : Bool :=
  (ms.isEmpty || monthIsin ms r) && (ccs.isEmpty || ccIsin ccs r)
    && (its.isEmpty || itemIsin its r)

/-! ## Scalar metrics (src/app.py lines 171-174) -/

/-- `total_spend = filtered_df['Line Item Total'].sum()`. -/
def total_spend (v : List Row) : Int := (v.map Row.lineItemTotal).sum

/-- `total_issued_qty = filtered_df['Issue Quantity'].sum()`. -/
def total_issued_qty (v : List Row) : Int := (v.map Row.issueQuantity).sum

/-- `unique_items = filtered_df['Item Code'].nunique()`. -/
def unique_items (v : List Row) : Nat := ((v.map Row.itemCode).dedup).length

/-- `active_ccs = filtered_df['Requesting Cost Center'].nunique()`. -/
def active_ccs (v : List Row) : Nat :=
  ((v.map Row.requestingCostCenter).dedup).length

/-! ## Group-by aggregates (src/app.py lines 194-195 and 221-222) -/

/-- Key order of `groupby` (pandas sorts group keys ascending). -/
def strLe (a b : String) : Prop := a ≤ b

instance : DecidableRel strLe :=
  fun a b => inferInstanceAs (Decidable (a ≤ b))

/-- The distinct group keys of a dataframe, in ascending order, as
produced by `groupby`. -/
def groupKeys (key : Row → String) (d : List Row) : List String :=
  List.insertionSort strLe ((d.map key).dedup)

/-- Model of `d.groupby(key)[val].sum().reset_index()`: one (key, sum)
pair per distinct key. -/
def groupSumBy (key : Row → String) (val : Row → Int) (d : List Row) :
    List (String × Int) :=
  (groupKeys key d).map
    (fun k => (k, ((d.filter (fun r => key r == k)).map val).sum))

/-- `filtered_df.groupby('Requesting Cost Center')['Line Item Total'].sum()`
(src/app.py line 194), before sorting and truncation. -/
def cc_spend (v : List Row) : List (String × Int) :=
  groupSumBy Row.requestingCostCenter Row.lineItemTotal v

/-- Ascending order on aggregate values. -/
def leVal (a b : String × Int) : Prop := a.2 ≤ b.2

/-- Descending order on aggregate values. -/
def geVal (a b : String × Int) : Prop := b.2 ≤ a.2

instance : DecidableRel leVal :=
  fun a b => inferInstanceAs (Decidable (a.2 ≤ b.2))

instance : DecidableRel geVal :=
  fun a b => inferInstanceAs (Decidable (b.2 ≤ a.2))

instance : IsTotal (String × Int) leVal :=
  ⟨fun a b => Int.le_total a.2 b.2⟩

instance : IsTrans (String × Int) leVal :=
  ⟨fun _ _ _ hab hbc => le_trans hab hbc⟩

instance : IsTotal (String × Int) geVal :=
  ⟨fun a b => Int.le_total b.2 a.2⟩

instance : IsTrans (String × Int) geVal :=
  ⟨fun _ _ _ hab hbc => le_trans hbc hab⟩

/-- `cc_spend.sort_values('Line Item Total', ascending=True)`
(src/app.py line 195). -/
def cc_spend_sorted (v : List Row) : List (String × Int) :=
  List.insertionSort leVal (cc_spend v)

/-- Model of `.tail(n)`: the last `n` rows. -/
def dfTail (n : Nat) (l : List (String × Int)) : List (String × Int) :=
  l.drop (l.length - n)

/-- The spend chart table: ascending sort then `.tail(n)`
(src/app.py line 195, with n = 10). -/
def cc_spend_chart (n : Nat) (v : List Row) : List (String × Int) :=
  dfTail n (cc_spend_sorted v)

/-- `filtered_df.groupby('Item Name')['Issue Quantity'].sum()`
(src/app.py line 221), before sorting and truncation. -/
def item_qty (v : List Row) : List (String × Int) :=
  groupSumBy Row.itemName Row.issueQuantity v

/-- `item_qty.sort_values('Issue Quantity', ascending=False)`
(src/app.py line 222). -/
def item_qty_sorted (v : List Row) : List (String × Int) :=
  List.insertionSort geVal (item_qty v)

/-- The item chart table: descending sort then `.head(n)`
(src/app.py line 222, with n = 10). -/
def item_qty_chart (n : Nat) (v : List Row) : List (String × Int) :=
  (item_qty_sorted v).take n

/-- Modelled from the spec: the truncation width of the two chart tables.
The file under src/ uses `.tail(10)` / `.head(10)`; the spec describes a
second, near-duplicate dense-layout variant of the script (not under src/)
that uses 8 instead of 10, selected by a density mode. -/
def top_n (dense : Bool) : Nat := if dense then 8 else 10

/-! ## Dashboard top level (src/app.py lines 118-162 and onward) -/

/-- Outcome of one render cycle: either the script stopped at `st.stop()`
after the empty-data warning, or it rendered the filtered view, the four
KPI metrics and the two chart tables. -/
inductive RunResult where
  | stopped (warning : String)
  | rendered (view : List Row) (spend issued : Int)
      (uniqueItemCount activeCcCount : Nat)
      (ccChart itemChart : List (String × Int))
deriving DecidableEq

/-- The dashboard body: on an empty dataframe it warns and stops before
any filtering or grouping (src/app.py lines 118, 160-162); otherwise it
prepares the data, filters it and computes metrics and charts. -/
def run_dashboard (df : List Row) (ms ccs its : List String) : RunResult :=
  if df.isEmpty then
    RunResult.stopped "No data loaded. Please check the source."
  else
    RunResult.rendered (filtered_df (prepare df) ms ccs its)
      (total_spend (filtered_df (prepare df) ms ccs its))
      (total_issued_qty (filtered_df (prepare df) ms ccs its))
      (unique_items (filtered_df (prepare df) ms ccs its))
      (active_ccs (filtered_df (prepare df) ms ccs its))
      (cc_spend_chart 10 (filtered_df (prepare df) ms ccs its))
      (item_qty_chart 10 (filtered_df (prepare df) ms ccs its))

/-! ## The two-row scenario dataset of the spec (section 8) -/

/-- Scenario row: 2026-01-15, cost center A, item Cups, qty 10, total 1000. -/
def rowA : Row :=
  { issueDate := some ⟨2026, 1, 15⟩
    issueNumber := "N1"
    requestingCostCenter := "A"
    itemCode := "Cups"
    itemName := "Cups"
    category := "Supplies"
    uom := "pcs"
    requisitionQuantity := 10
    issueQuantity := 10
    pendingIssueQuantity := 0
    itemRate := 100
    lineItemTotal := 1000
    issueStatus := "Issued"
    monthYear := none }

/-- Scenario row: 2026-01-20, cost center B, item Cups, qty 5, total 500. -/
def rowB : Row :=
  { issueDate := some ⟨2026, 1, 20⟩
    issueNumber := "N2"
    requestingCostCenter := "B"
    itemCode := "Cups"
    itemName := "Cups"
    category := "Supplies"
    uom := "pcs"
    requisitionQuantity := 5
    issueQuantity := 5
    pendingIssueQuantity := 0
    itemRate := 100
    lineItemTotal := 500
    issueStatus := "Issued"
    monthYear := none }

/-- The prepared two-row scenario dataset. -/
def scenario_df : List Row := prepare [rowA, rowB]

/-! ## Helper lemmas -/

/-- Each single filter application is a `List.filter` with the
emptiness guard folded into the predicate. -/
theorem apply_month_eq_filter (ms : List String) (l : List Row) :
    apply_month ms l = l.filter (fun r => ms.isEmpty || monthIsin ms r) := by
  by_cases h : ms.isEmpty <;> simp [apply_month, h]

theorem apply_cc_eq_filter (ccs : List String) (l : List Row) :
    apply_cc ccs l = l.filter (fun r => ccs.isEmpty || ccIsin ccs r) := by
  by_cases h : ccs.isEmpty <;> simp [apply_cc, h]

theorem apply_items_eq_filter (its : List String) (l : List Row) :
    apply_items its l = l.filter (fun r => its.isEmpty || itemIsin its r) := by
  by_cases h : its.isEmpty <;> simp [apply_items, h]

theorem sum_map_add {α : Type} (f g : α → Int) (l : List α) :
    (l.map fun x => f x + g x).sum = (l.map f).sum + (l.map g).sum := by
  induction l with
  | nil => simp
  | cons a t ih => simp [ih]; ring

theorem sum_if_not_mem (keys : List String) (x : String) (v : Int)
    (hx : x ∉ keys) :
    (keys.map fun k => if x = k then v else 0).sum = 0 := by
  induction keys with
  | nil => simp
  | cons k ks ih =>
    have hxk : x ≠ k := fun he => hx (he ▸ List.mem_cons_self k ks)
    have hxs : x ∉ ks := fun hm => hx (List.mem_cons_of_mem _ hm)
    simp [hxk, ih hxs]

theorem sum_if_mem (keys : List String) (x : String) (v : Int)
    (hnd : keys.Nodup) (hx : x ∈ keys) :
    (keys.map fun k => if x = k then v else 0).sum = v := by
  induction keys with
  | nil => cases hx
  | cons k ks ih =>
    rcases List.mem_cons.mp hx with he | hm
    · subst he
      have hns : x ∉ ks := (List.nodup_cons.mp hnd).1
      simp [sum_if_not_mem ks x v hns]
    · have hxk : x ≠ k := by
        rintro rfl
        exact (List.nodup_cons.mp hnd).1 hm
      simp [hxk, ih (List.nodup_cons.mp hnd).2 hm]

/-- Summing the per-key sums over a duplicate-free covering key list
recovers the total sum. -/
theorem partition_sum {α : Type} (key : α → String) (val : α → Int)
    (keys : List String) (d : List α)
    (hnd : keys.Nodup) (hcov : ∀ r ∈ d, key r ∈ keys) :
    (keys.map fun k => ((d.filter fun r => key r == k).map val).sum).sum
      = (d.map val).sum := by
  induction d with
  | nil => simp
  | cons r t ih =>
    have hcr : key r ∈ keys := hcov r (List.mem_cons_self r t)
    have hct : ∀ x ∈ t, key x ∈ keys :=
      fun x hx => hcov x (List.mem_cons_of_mem _ hx)
    have step : ∀ k : String,
        ((List.filter (fun x => key x == k) (r :: t)).map val).sum
          = (if key r = k then val r else 0)
            + ((t.filter fun x => key x == k).map val).sum := by
      intro k
      by_cases hk : key r = k
      · simp [List.filter_cons, hk]
      · simp [List.filter_cons, hk]
    calc (keys.map fun k =>
            ((List.filter (fun x => key x == k) (r :: t)).map val).sum).sum
        = (keys.map fun k => (if key r = k then val r else 0)
            + ((t.filter fun x => key x == k).map val).sum).sum := by
          exact congrArg List.sum (List.map_congr_left fun k _ => step k)
      _ = (keys.map fun k => if key r = k then val r else 0).sum
            + (keys.map fun k =>
                ((t.filter fun x => key x == k).map val).sum).sum :=
          sum_map_add _ _ keys
      _ = val r + (t.map val).sum := by
          rw [sum_if_mem keys _ _ hnd hcr, ih hct]
      _ = ((r :: t).map val).sum := by simp

/-- The group keys are duplicate-free. -/
theorem groupKeys_nodup (key : Row → String) (d : List Row) :
    (groupKeys key d).Nodup :=
  ((List.perm_insertionSort strLe ((d.map key).dedup)).symm).nodup
    (List.nodup_dedup _)

/-- Every row's key occurs among the group keys. -/
theorem mem_groupKeys (key : Row → String) (d : List Row) :
    ∀ r ∈ d, key r ∈ groupKeys key d := by
  intro r hr
  have h1 : key r ∈ (d.map key).dedup :=
    List.mem_dedup.mpr (List.mem_map_of_mem key hr)
  exact ((List.perm_insertionSort strLe _).mem_iff).mpr h1

/-- The values of a group-by-sum table add up to the total of the
summed column. -/
theorem groupSumBy_sum (key : Row → String) (val : Row → Int)
    (d : List Row) :
    ((groupSumBy key val d).map Prod.snd).sum = (d.map val).sum := by
  unfold groupSumBy
  rw [List.map_map]
  have : (Prod.snd ∘ fun k =>
      (k, ((d.filter fun r => key r == k).map val).sum))
      = fun k => ((d.filter fun r => key r == k).map val).sum := rfl
  rw [this]
  exact partition_sum key val (groupKeys key d) d
    (groupKeys_nodup key d) (mem_groupKeys key d)

/-! ## Claim theorems -/

/-- C2: when all three filter sets are empty the filter stage imposes no
restriction: the filtered view equals the full dataset, row for row. -/
theorem claim_C2_empty_filters_no_restriction (d : List Row) :
    filtered_df d [] [] [] = d := by
  simp [filtered_df, filter_stage, apply_month, apply_cc, apply_items, dfCopy]

/-- C6: every fetch or parse failure inside `load_data` is caught: the
loader reports the error message non-fatally and returns an empty
dataset, while a successful attempt returns its rows unreported. -/
theorem claim_C6_load_failure_degrades_to_empty (e : String) :
    load_data (Except.error e)
        = { df := [], errorReported := some ("Error loading data: " ++ e) }
      ∧ (load_data (Except.error e)).df = []
      ∧ (load_data (Except.error e)).errorReported.isSome = true
      ∧ (∀ rows : List Row,
          load_data (Except.ok rows) = { df := rows, errorReported := none }) :=
  ⟨rfl, rfl, rfl, fun _ => rfl⟩

/-- C7: on an empty loaded dataset the dashboard short-circuits with the
"no data" warning and stops, before any filtering or grouping; being a
total function, it raises no exception. -/
theorem claim_C7_empty_dataset_short_circuits (ms ccs its : List String) :
    run_dashboard [] ms ccs its
      = RunResult.stopped "No data loaded. Please check the source." := rfl

/-- C10: the filter stage never mutates the loaded dataset: it operates
on a copy (which equals the original row for row), and after the stage
the full dataset - its rows, their derived `Month_Year` values, and
their order - is exactly what it was before. -/
theorem claim_C10_filter_stage_frame (d : List Row) (ms ccs its : List String) :
    (filter_stage d ms ccs its).1 = d ∧ dfCopy d = d :=
  ⟨rfl, List.map_id d⟩

/-- C5: the four scalar metrics are the sum of `Line Item Total`, the sum
of `Issue Quantity`, the number of distinct `Item Code` values and the
number of distinct `Requesting Cost Center` values over the filtered
view; on the two-row scenario dataset they are 1500, 15, 1 and 2 with no
filters, and 1000, 10 and 1 cost center under the cost-center filter
`{"A"}`. -/
theorem claim_C5_scenario_metrics :
    (∀ v : List Row,
        total_spend v = (v.map Row.lineItemTotal).sum
      ∧ total_issued_qty v = (v.map Row.issueQuantity).sum
      ∧ unique_items v = ((v.map Row.itemCode).dedup).length
      ∧ active_ccs v = ((v.map Row.requestingCostCenter).dedup).length)
    ∧ total_spend (filtered_df scenario_df [] [] []) = 1500
    ∧ total_issued_qty (filtered_df scenario_df [] [] []) = 15
    ∧ unique_items (filtered_df scenario_df [] [] []) = 1
    ∧ active_ccs (filtered_df scenario_df [] [] []) = 2
    ∧ total_spend (filtered_df scenario_df [] ["A"] []) = 1000
    ∧ total_issued_qty (filtered_df scenario_df [] ["A"] []) = 10
    ∧ active_ccs (filtered_df scenario_df [] ["A"] []) = 1 :=
  ⟨fun _ => ⟨rfl, rfl, rfl, rfl⟩, by decide, by decide, by decide,
    by decide, by decide, by decide, by decide⟩

/-- C4: in the numeric coercion `load_data` applies to each designated
numeric column, a cell whose numeric parse fails is coerced to 0 (never
an error), and a cell parsing to a numeric value is coerced to that
value. -/
theorem claim_C4_numeric_coercion (cname : String) (_hc : cname ∈ numeric_cols)
    (col : List String) (i : Nat) (h : i < col.length) :
    (parseNumeric (col.get ⟨i, h⟩) = none →
      (coerce_numeric_column col).get
        ⟨i, by simpa [coerce_numeric_column, fillna_zero, to_numeric_coerce]
            using h⟩ = 0)
    ∧ (∀ v : Int, parseNumeric (col.get ⟨i, h⟩) = some v →
      (coerce_numeric_column col).get
        ⟨i, by simpa [coerce_numeric_column, fillna_zero, to_numeric_coerce]
            using h⟩ = v) := by
  have hget : ∀ hh : i < (coerce_numeric_column col).length,
      (coerce_numeric_column col).get ⟨i, hh⟩
        = (parseNumeric (col.get ⟨i, h⟩)).getD 0 := by
    intro hh
    simp [coerce_numeric_column, fillna_zero, to_numeric_coerce,
      List.get_eq_getElem, List.getElem_map]
  constructor
  · intro hnone
    rw [hget, hnone]
    rfl
  · intro v hv
    rw [hget, hv]
    rfl

/-- Witness for C4: in the designated column `"Item Rate"`, the cell
`"7"` parses and is coerced to 7, and the cell `"abc"` fails to parse
and is coerced to 0. -/
theorem claim_C4_numeric_coercion_witness :
    (coerce_numeric_column ["7", "abc"]).get ⟨0, by decide⟩ = 7
    ∧ (coerce_numeric_column ["7", "abc"]).get ⟨1, by decide⟩ = 0 :=
  ⟨(claim_C4_numeric_coercion "Item Rate" (by decide) ["7", "abc"] 0
      (by decide)).2 7 (by decide),
   (claim_C4_numeric_coercion "Item Rate" (by decide) ["7", "abc"] 1
      (by decide)).1 (by decide)⟩

/-- C1: the filtered view is exactly the rows passing all three
membership tests (each applied only when its selection is non-empty),
and intersecting the three filters in any of the six orders yields the
same filtered view. -/
theorem claim_C1_filters_conjunctive_order_independent
    (d : List Row) (ms ccs its : List String) :
    filtered_df d ms ccs its = d.filter (keepRow ms ccs its)
    ∧ apply_month ms (apply_cc ccs (apply_items its (dfCopy d)))
        = filtered_df d ms ccs its
    ∧ apply_month ms (apply_items its (apply_cc ccs (dfCopy d)))
        = filtered_df d ms ccs its
    ∧ apply_cc ccs (apply_month ms (apply_items its (dfCopy d)))
        = filtered_df d ms ccs its
    ∧ apply_cc ccs (apply_items its (apply_month ms (dfCopy d)))
        = filtered_df d ms ccs its
    ∧ apply_items its (apply_month ms (apply_cc ccs (dfCopy d)))
        = filtered_df d ms ccs its := by
  refine ⟨?_, ?_, ?_, ?_, ?_, ?_⟩ <;>
  · simp only [filtered_df, filter_stage, dfCopy, List.map_id,
      apply_month_eq_filter, apply_cc_eq_filter, apply_items_eq_filter,
      List.filter_filter]
    refine List.filter_congr fun x _ => ?_
    cases hm : (ms.isEmpty || monthIsin ms x) <;>
      cases hcc : (ccs.isEmpty || ccIsin ccs x) <;>
        cases hit : (its.isEmpty || itemIsin its x) <;>
          simp [keepRow, hm, hcc, hit]

/-- C3: the per-cost-center spend aggregate (before top-N truncation)
is conserved: its values sum to the total-spend metric of the same
filtered view, for every dataset and filter selection. -/
theorem claim_C3_cc_spend_conserves_total
    (d : List Row) (ms ccs its : List String) :
    ((cc_spend (filtered_df d ms ccs its)).map Prod.snd).sum
      = total_spend (filtered_df d ms ccs its) :=
  groupSumBy_sum Row.requestingCostCenter Row.lineItemTotal
    (filtered_df d ms ccs its)

/-- No colon character survives `removeSpaceColon` followed by
`removeColon` - in particular no trailing one. -/
theorem removeColon_no_colon (cs : List Char) (c : Char)
    (hc : c ∈ removeColon cs) : c ≠ ':' := by
  have := (List.mem_filter.mp hc).2
  simpa using this

/-- `removeSpaceColon` leaves a colon-free string unchanged. -/
theorem removeSpaceColon_id (cs : List Char) (h : ':' ∉ cs) :
    removeSpaceColon cs = cs := by
  induction cs with
  | nil => rfl
  | cons c1 tail ih =>
    cases tail with
    | nil => rfl
    | cons c2 rest =>
      have h2 : ':' ∉ (c2 :: rest) := fun hm => h (List.mem_cons_of_mem _ hm)
      have hc2 : ¬(c1 = ' ' ∧ c2 = ':') := by
        rintro ⟨-, he⟩
        exact h2 (he ▸ List.mem_cons_self c2 rest)
      simp [removeSpaceColon, hc2, ih h2]

/-- `removeColon` leaves a colon-free string unchanged. -/
theorem removeColon_id (cs : List Char) (h : ':' ∉ cs) :
    removeColon cs = cs := by
  refine List.filter_eq_self.mpr fun c hc => ?_
  have : c ≠ ':' := fun he => h (he ▸ hc)
  simpa using this

/-- Trimming only drops characters. -/
theorem mem_trimChars (cs : List Char) (c : Char) (hc : c ∈ trimChars cs) :
    c ∈ cs := by
  unfold trimChars at hc
  rw [List.mem_reverse] at hc
  have h1 := (List.dropWhile_sublist (l := (cs.dropWhile Char.isWhitespace).reverse)
      (p := Char.isWhitespace)).subset hc
  rw [List.mem_reverse] at h1
  exact (List.dropWhile_sublist (l := cs) (p := Char.isWhitespace)).subset h1

/-- C9: `load_data` normalizes every column name before use: the name is
trimmed of surrounding whitespace and its colon markers are removed, so
no (in particular no trailing) colon survives; the header
`"Issue date :"` becomes `"Issue date"`, and a colon-free header is
exactly trimmed. -/
theorem claim_C9_header_normalization :
    normalize_header "Issue date :" = "Issue date"
    ∧ (∀ (s : String) (c : Char), c ∈ (normalize_header s).toList → c ≠ ':')
    ∧ (∀ s : String, ':' ∉ s.toList → normalize_header s = strTrim s) := by
  refine ⟨by decide, ?_, ?_⟩
  · intro s c hc
    exact removeColon_no_colon _ c hc
  · intro s h
    have h1 : ':' ∉ (strTrim s).toList := fun hm => h (mem_trimChars _ _ hm)
    show (⟨removeColon (removeSpaceColon (strTrim s).toList)⟩ : String) = strTrim s
    rw [removeSpaceColon_id _ h1, removeColon_id _ h1]
    rfl

/-- Witness for C9: the character `I` of the normalized header
`"Issue date"` is not a colon, and the colon-free header
`" Requesting Cost Center "` is exactly trimmed by normalization. -/
theorem claim_C9_header_normalization_witness :
    ('I' : Char) ≠ ':'
    ∧ normalize_header " Requesting Cost Center "
        = strTrim " Requesting Cost Center " :=
  ⟨claim_C9_header_normalization.2.1 "Issue date" 'I' (by decide),
   claim_C9_header_normalization.2.2 " Requesting Cost Center " (by decide)⟩

/-! ## Top-N characterization helpers for C8 -/

/-- The tail of an ascending sort is itself ascending. -/
theorem tail_sorted_asc (l : List (String × Int)) (n : Nat) :
    List.Sorted leVal (dfTail n (List.insertionSort leVal l)) :=
  List.Pairwise.sublist (List.drop_sublist _ _)
    (List.sorted_insertionSort leVal l)

/-- A table splits, up to permutation, into the part an ascending sort
plus `.tail(n)` drops and the part it keeps. -/
theorem perm_tail_decomp (l : List (String × Int)) (n : Nat) :
    l.Perm ((List.insertionSort leVal l).take
        ((List.insertionSort leVal l).length - n)
      ++ dfTail n (List.insertionSort leVal l)) := by
  rw [dfTail, List.take_append_drop]
  exact (List.perm_insertionSort leVal l).symm

/-- Every kept value of an ascending sort's tail dominates every
dropped value. -/
theorem tail_cross (l : List (String × Int)) (n : Nat) :
    ∀ x ∈ dfTail n (List.insertionSort leVal l),
      ∀ y ∈ (List.insertionSort leVal l).take
          ((List.insertionSort leVal l).length - n),
        y.2 ≤ x.2 := by
  intro x hx y hy
  simp only [dfTail] at hx
  have hs : List.Pairwise leVal
      ((List.insertionSort leVal l).take
          ((List.insertionSort leVal l).length - n)
        ++ (List.insertionSort leVal l).drop
          ((List.insertionSort leVal l).length - n)) := by
    rw [List.take_append_drop]
    exact List.sorted_insertionSort leVal l
  exact (List.pairwise_append.mp hs).2.2 y hy x hx

/-- `.tail(n)` keeps `min n` (number of groups) rows. -/
theorem tail_length (l : List (String × Int)) (n : Nat) :
    (dfTail n (List.insertionSort leVal l)).length = min n l.length := by
  have hp := (List.perm_insertionSort leVal l).length_eq
  simp only [dfTail, List.length_drop]
  omega

/-- The head of a descending sort is itself descending. -/
theorem head_sorted_desc (l : List (String × Int)) (n : Nat) :
    List.Sorted geVal ((List.insertionSort geVal l).take n) :=
  List.Pairwise.sublist (List.take_sublist _ _)
    (List.sorted_insertionSort geVal l)

/-- A table splits, up to permutation, into the part a descending sort
plus `.head(n)` keeps and the part it drops. -/
theorem perm_head_decomp (l : List (String × Int)) (n : Nat) :
    l.Perm ((List.insertionSort geVal l).take n
      ++ (List.insertionSort geVal l).drop n) := by
  rw [List.take_append_drop]
  exact (List.perm_insertionSort geVal l).symm

/-- Every kept value of a descending sort's head dominates every
dropped value. -/
theorem head_cross (l : List (String × Int)) (n : Nat) :
    ∀ x ∈ (List.insertionSort geVal l).take n,
      ∀ y ∈ (List.insertionSort geVal l).drop n, y.2 ≤ x.2 := by
  intro x hx y hy
  have hs : List.Pairwise geVal
      ((List.insertionSort geVal l).take n
        ++ (List.insertionSort geVal l).drop n) := by
    rw [List.take_append_drop]
    exact List.sorted_insertionSort geVal l
  exact (List.pairwise_append.mp hs).2.2 x hx y hy

/-- `.head(n)` keeps `min n` (number of groups) rows. -/
theorem head_length (l : List (String × Int)) (n : Nat) :
    ((List.insertionSort geVal l).take n).length = min n l.length := by
  have hp := (List.perm_insertionSort geVal l).length_eq
  simp only [List.length_take]
  omega

/-- C8: for every filtered view, the spend chart table is the
per-cost-center sums sorted ascending by value and truncated to the
top N largest (it is ascending, together with the dropped rows it is a
permutation of the full aggregate, every kept value dominates every
dropped value, and it has `min N #groups` rows); the item chart table is
the per-item-name quantity sums sorted descending and truncated to the
top N likewise; and the truncation width is 8 or 10 according to the
density mode. -/
theorem claim_C8_aggregate_tables_top_n
    (d : List Row) (ms ccs its : List String) (dense : Bool) :
    (top_n dense = 8 ∨ top_n dense = 10)
    ∧ (∀ n : Nat,
        List.Sorted leVal (cc_spend_chart n (filtered_df d ms ccs its))
      ∧ (cc_spend (filtered_df d ms ccs its)).Perm
          ((cc_spend_sorted (filtered_df d ms ccs its)).take
              ((cc_spend_sorted (filtered_df d ms ccs its)).length - n)
            ++ cc_spend_chart n (filtered_df d ms ccs its))
      ∧ (∀ x ∈ cc_spend_chart n (filtered_df d ms ccs its),
          ∀ y ∈ (cc_spend_sorted (filtered_df d ms ccs its)).take
              ((cc_spend_sorted (filtered_df d ms ccs its)).length - n),
            y.2 ≤ x.2)
      ∧ (cc_spend_chart n (filtered_df d ms ccs its)).length
          = min n (cc_spend (filtered_df d ms ccs its)).length
      ∧ List.Sorted geVal (item_qty_chart n (filtered_df d ms ccs its))
      ∧ (item_qty (filtered_df d ms ccs its)).Perm
          (item_qty_chart n (filtered_df d ms ccs its)
            ++ (item_qty_sorted (filtered_df d ms ccs its)).drop n)
      ∧ (∀ x ∈ item_qty_chart n (filtered_df d ms ccs its),
          ∀ y ∈ (item_qty_sorted (filtered_df d ms ccs its)).drop n,
            y.2 ≤ x.2)
      ∧ (item_qty_chart n (filtered_df d ms ccs its)).length
          = min n (item_qty (filtered_df d ms ccs its)).length) := by
  refine ⟨by cases dense <;> simp [top_n], fun n => ?_⟩
  exact ⟨tail_sorted_asc (cc_spend (filtered_df d ms ccs its)) n,
    perm_tail_decomp (cc_spend (filtered_df d ms ccs its)) n,
    tail_cross (cc_spend (filtered_df d ms ccs its)) n,
    tail_length (cc_spend (filtered_df d ms ccs its)) n,
    head_sorted_desc (item_qty (filtered_df d ms ccs its)) n,
    perm_head_decomp (item_qty (filtered_df d ms ccs its)) n,
    head_cross (item_qty (filtered_df d ms ccs its)) n,
    head_length (item_qty (filtered_df d ms ccs its)) n⟩
